import Mathlib

/-!
A shallow embedding of `AnyPercentSearcher.py` and proofs about it.

The remote HTTP service is modelled by oracle functions: a URL (and, for the
endpoints that re-issue a request after a rate-limit response, an attempt
counter) is mapped to a `Response`, i.e. a status code together with the
parsed JSON body.  JSON bodies are modelled by structures whose fields are
`Option`-valued exactly where the Python code tests for the key's presence
(or would raise `KeyError` on its absence).  The unbounded `while` loops of
the Python code are embedded with an explicit fuel parameter; running out of
fuel is a distinguished result, so every definition is total and executable.
Floating point timing values are modelled by rationals; Python's float
floor-division and modulo are `Rat.floor`-based, which agrees with Python on
all rational inputs.
-/

namespace AnyPercentSearcher

/-- An HTTP response: status code plus parsed JSON body. -/
structure Response (α : Type) where
  status_code : Nat
  body : α
deriving DecidableEq

/-- `RATE_LIMIT_ERROR_CODE = 420` from the configuration block. -/
def RATE_LIMIT_ERROR_CODE : Nat := 420

/-- One entry of `pagination.links`: a `{rel, uri}` pair. -/
structure Link where
  rel : String
  uri : String
deriving DecidableEq

/-- The `pagination` block.  The `links` key may be absent (the game and genre
loops test `'links' in data['pagination']`). -/
structure Pagination where
  links : Option (List Link)
deriving DecidableEq

/-- A platform / genre / category catalog entry: `{id, name}`. -/
structure CatalogEntry where
  id : String
  name : String
deriving DecidableEq

/-- A page of the platform or genre catalog.  Both the `data` and the
`pagination` keys may be absent. -/
structure CatalogPage where
  data : Option (List CatalogEntry)
  pagination : Option Pagination
deriving DecidableEq

/-- The `names` block of a game record; only `international` is consumed. -/
structure GameNames where
  international : String
deriving DecidableEq

/-- A game record as consumed from the game catalog: `{id, names, genres}`.
The `genres` key (a list of genre id strings) may be absent: the enumerator
tests `'genres' in game`. -/
structure Game where
  id : String
  names : GameNames
  genres : Option (List String)
deriving DecidableEq

/-- A page of the game catalog. -/
structure GamePage where
  data : Option (List Game)
  pagination : Option Pagination
deriving DecidableEq

/-- The interesting part of a per-game detail record: its `platforms` list,
which may be absent. -/
structure GameDetail where
  platforms : Option (List String)
deriving DecidableEq

/-- The payload of `/games/{id}`: a `data` key that may be absent. -/
structure GameDetailPayload where
  data : Option GameDetail
deriving DecidableEq

/-- `times.primary_t` of a run, in seconds. -/
structure Times where
  primary_t : ℚ
deriving DecidableEq

/-- The `run` object inside a leaderboard entry. -/
structure RunEntryInner where
  times : Times
deriving DecidableEq

/-- One element of a leaderboard's `runs` array. -/
structure RunEntry where
  run : RunEntryInner
deriving DecidableEq

/-- A leaderboard object; the `runs` key may be absent
(`get_world_record_any` tests `'runs' in leaderboard_data`). -/
structure Leaderboard where
  runs : Option (List RunEntry)
deriving DecidableEq

/-- The payload of a leaderboard request: `data` key may be absent
(`leaderboard_data.get('data', {})`). -/
structure LeaderboardPayload where
  data : Option Leaderboard
deriving DecidableEq

/-- The payload of `/games/{id}/categories`: `data` key may be absent
(`categories_data.get('data', [])`). -/
structure CategoriesPayload where
  data : Option (List CatalogEntry)
deriving DecidableEq

/-! ### Report driver (`main`, lines 40-48) -/

/-- `ANY_PERCENT_MIN_RUN_TIME['hours'] * 3600 + ANY_PERCENT_MIN_RUN_TIME['minutes'] * 60`. -/
def filter_min_run_time (hours minutes : Nat) : ℚ :=
  hours * 3600 + minutes * 60

/-- Python's `"{:n}".format(i)` for an integer: decimal rendering,
right-aligned in a field of width `n` with spaces. -/
def format_int_pad (width : Nat) (i : Int) : String :=
  let s := toString i
  if s.length < width then String.mk (List.replicate (width - s.length) ' ') ++ s else s

/-- The line printed for a qualifying game:
`"{:3} hours {:2} minutes | {}".format(hours, minutes, name)` with
`hours = int(t // 3600)` and `minutes = int((t % 3600) // 60)`.
Python float `//` is floor division and `t % 3600 = t - 3600 * (t // 3600)`. -/
def report_line_head (world_record_time : ℚ) : String :=
  let hours : Int := Rat.floor (world_record_time / 3600)
  let minutes : Int :=
    Rat.floor ((world_record_time - 3600 * (Rat.floor (world_record_time / 3600) : ℚ)) / 60)
  format_int_pad 3 hours ++ " hours " ++ format_int_pad 2 minutes ++ " minutes | "

/-- The full line printed for a qualifying game: the formatted time followed
by `game['names']['international']`. -/
def report_line (world_record_time : ℚ) (name : String) : String :=
  report_line_head world_record_time ++ name

/-- The body of the report loop for one game (lines 44-48): given the result
of `get_world_record_any`, produce the printed line, if any.  Python's
`if world_record_time and world_record_time > filter_min_run_time` is `None`
and zero-falsy. -/
def report_game (world_record_time : Option ℚ) (fmin : ℚ) (name : String) : Option String :=
  match world_record_time with
  | none => none
  | some t => if t ≠ 0 ∧ t > fmin then some (report_line t name) else none

/-! ### Platform resolution (`get_platform_id`, lines 50-83) -/

/-- Result of `get_platform_id`.  `fetches` counts page requests issued.
`keyError` is Python's `KeyError` on a missing `data`, `pagination` or
`links` key; `fuelOut` only marks exhaustion of the embedding's fuel. -/
inductive PlatformIdResult
  | found (id : String) (fetches : Nat)
  | notFound (fetches : Nat)
  | keyError
  | fuelOut
deriving DecidableEq

/-- `get_platform_id` (lines 50-83).  Each iteration issues one GET — the
status code is never inspected (`data = response.json()` immediately) — scans
`data['data']` in order for `platform['name'] == platform_name`, and
otherwise follows the first link of `data['pagination']['links']` whose
`rel` equals `'next'`, provided its `uri` is truthy (`if next_page_url:`);
with no such link, or an empty `uri`, it returns `None`. -/
def get_platform_id (remote : String → Response CatalogPage) (platform_name : String) :
    String → Nat → Nat → PlatformIdResult
  | _, _, 0 => .fuelOut
  | url, fetches, fuel + 1 =>
    let data := (remote url).body
    match data.data with
    | none => .keyError
    | some platforms =>
      match platforms.find? (fun p => p.name == platform_name) with
      | some p => .found p.id (fetches + 1)
      | none =>
        match data.pagination with
        | none => .keyError
        | some pg =>
          match pg.links with
          | none => .keyError
          | some links =>
            match links.find? (fun l => l.rel == "next") with
            | some l =>
              if l.uri ≠ "" then get_platform_id remote platform_name l.uri (fetches + 1) fuel
              else .notFound (fetches + 1)
            | none => .notFound (fetches + 1)

/-- The walk of `get_platform_id` starting from `url` visits exactly the
pages `pages`: every page is well-formed (all keys present), each non-final
page's first `next`-relation link has a truthy URI and points at the next
page's URL, and the final page has no `next`-relation link with a truthy
URI. -/
inductive PlatChain (remote : String → Response CatalogPage) : String → List CatalogPage → Prop
  | last (url : String) (entries : List CatalogEntry) (links : List Link)
      (hbody : (remote url).body = ⟨some entries, some ⟨some links⟩⟩)
      (hstop : ∀ l, links.find? (fun x => x.rel == "next") = some l → l.uri = "") :
      PlatChain remote url [⟨some entries, some ⟨some links⟩⟩]
  | step (url : String) (entries : List CatalogEntry) (links : List Link) (l : Link)
      (rest : List CatalogPage)
      (hbody : (remote url).body = ⟨some entries, some ⟨some links⟩⟩)
      (hnext : links.find? (fun x => x.rel == "next") = some l)
      (huri : l.uri ≠ "")
      (hrest : PlatChain remote l.uri rest) :
      PlatChain remote url (⟨some entries, some ⟨some links⟩⟩ :: rest)

/-- Specification-side helper: the position of the first page containing an
entry whose name equals `platform_name` exactly (case-sensitively), paired
with that page's first such entry. -/
def first_platform_match (platform_name : String) : List CatalogPage → Option (Nat × CatalogEntry)
  | [] => none
  | p :: ps =>
    match (p.data.getD []).find? (fun e => e.name == platform_name) with
    | some e => some (0, e)
    | none => (first_platform_match platform_name ps).map (fun ie => (ie.1 + 1, ie.2))

/-- Concrete fixture: first platform-catalog page, no matching entry, with a
`next` link to `"p2"`. -/
def platPage1 : CatalogPage :=
  ⟨some [⟨"pc-id", "PC"⟩], some ⟨some [⟨"next", "p2"⟩]⟩⟩

/-- Concrete fixture: final platform-catalog page containing the GameCube
entry of the spec's scenario. -/
def platPage2 : CatalogPage :=
  ⟨some [⟨"o1y9wo6q", "GameCube"⟩], some ⟨some [⟨"prev", "p1"⟩]⟩⟩

/-- Concrete fixture: a two-page platform catalog served at urls `"p1"` and
`"p2"`. -/
def platRemoteW : String → Response CatalogPage := fun u =>
  if u = "p2" then ⟨200, platPage2⟩ else ⟨200, platPage1⟩

/-! ### Genre resolution (`get_genre_ids_to_include_and_exclude`, lines 223-264) -/

/-- Result of `get_genre_ids_to_include_and_exclude`: the two id lists plus
the raw pages printed on a malformed payload, or a `KeyError` on a page with
no `data` key (line 247 indexes `data['data']` unconditionally). -/
inductive GenreIdsResult
  | ok (genre_ids_to_include genre_ids_to_exclude : List String) (printed : List CatalogPage)
  | keyError
  | fuelOut
deriving DecidableEq

/-- The per-page classification loop (lines 247-251): for each genre in
order, `if genre['name'] in GENRES_TO_INCLUDE` append its id to the include
list, `elif genre['name'] in GENRES_TO_EXCLUDE` append its id to the exclude
list. -/
def classify_genres (GENRES_TO_INCLUDE GENRES_TO_EXCLUDE : List String) :
    List CatalogEntry → List String × List String
  | [] => ([], [])
  | g :: gs =>
    let rest := classify_genres GENRES_TO_INCLUDE GENRES_TO_EXCLUDE gs
    if GENRES_TO_INCLUDE.contains g.name then (g.id :: rest.1, rest.2)
    else if GENRES_TO_EXCLUDE.contains g.name then (rest.1, g.id :: rest.2)
    else rest

/-- `get_genre_ids_to_include_and_exclude` (lines 223-264).  A 420 response
sleeps and re-issues the same URL (`continue`); a page without `data` raises
`KeyError`; classification happens before the pagination check; pagination
follows `data['pagination']['links'][-1]` — the positionally last link — and
only when that link's `uri` is truthy and its `rel` is `'next'`; a page
whose `pagination` or `links` key is missing is printed and ends the loop. -/
def get_genre_ids_to_include_and_exclude (remote : String → Nat → Response CatalogPage)
    (GENRES_TO_INCLUDE GENRES_TO_EXCLUDE : List String) :
    String → Nat → List String → List String → List CatalogPage → Nat → GenreIdsResult
  | _, _, _, _, _, 0 => .fuelOut
  | url, attempt, acc_inc, acc_exc, printed, fuel + 1 =>
    let resp := remote url attempt
    if resp.status_code = RATE_LIMIT_ERROR_CODE then
      get_genre_ids_to_include_and_exclude remote GENRES_TO_INCLUDE GENRES_TO_EXCLUDE
        url (attempt + 1) acc_inc acc_exc printed fuel
    else
      match resp.body.data with
      | none => .keyError
      | some genres =>
        let cls := classify_genres GENRES_TO_INCLUDE GENRES_TO_EXCLUDE genres
        let acc_inc2 := acc_inc ++ cls.1
        let acc_exc2 := acc_exc ++ cls.2
        match resp.body.pagination with
        | none => .ok acc_inc2 acc_exc2 (printed ++ [resp.body])
        | some pg =>
          match pg.links with
          | none => .ok acc_inc2 acc_exc2 (printed ++ [resp.body])
          | some links =>
            match links.getLast? with
            | none => .ok acc_inc2 acc_exc2 printed
            | some l =>
              if l.uri ≠ "" ∧ l.rel = "next" then
                get_genre_ids_to_include_and_exclude remote GENRES_TO_INCLUDE GENRES_TO_EXCLUDE
                  l.uri 0 acc_inc2 acc_exc2 printed fuel
              else .ok acc_inc2 acc_exc2 printed

/-- The walk of the genre loop from `url` visits exactly `pages`: each fetch
answers with a non-420 status at its first attempt, each page is well-formed,
each non-final page's last link is a truthy `next`, and the final page's last
link (if any) is not a truthy `next`. -/
inductive GenreChain (remote : String → Nat → Response CatalogPage) :
    String → List CatalogPage → Prop
  | last (url : String) (entries : List CatalogEntry) (links : List Link)
      (hstatus : (remote url 0).status_code ≠ RATE_LIMIT_ERROR_CODE)
      (hbody : (remote url 0).body = ⟨some entries, some ⟨some links⟩⟩)
      (hstop : ∀ l, links.getLast? = some l → ¬(l.uri ≠ "" ∧ l.rel = "next")) :
      GenreChain remote url [⟨some entries, some ⟨some links⟩⟩]
  | step (url : String) (entries : List CatalogEntry) (links : List Link) (l : Link)
      (rest : List CatalogPage)
      (hstatus : (remote url 0).status_code ≠ RATE_LIMIT_ERROR_CODE)
      (hbody : (remote url 0).body = ⟨some entries, some ⟨some links⟩⟩)
      (hlast : links.getLast? = some l) (huri : l.uri ≠ "") (hrel : l.rel = "next")
      (hrest : GenreChain remote l.uri rest) :
      GenreChain remote url (⟨some entries, some ⟨some links⟩⟩ :: rest)

/-- Concrete fixture: genre catalog page at `"g1"` holding genre `X`, whose
`next` link comes first in the links array and whose last link is a `prev`. -/
def genreRemoteReordered : String → Nat → Response CatalogPage := fun u _ =>
  if u = "u2" then ⟨200, ⟨some [⟨"g2", "Y"⟩], some ⟨some [⟨"prev", "u1"⟩]⟩⟩⟩
  else ⟨200, ⟨some [⟨"g1", "X"⟩], some ⟨some [⟨"next", "u2"⟩, ⟨"prev", "u0"⟩]⟩⟩⟩

/-- Concrete fixture: a two-page genre catalog in the conventional link
order (last link of page one is the `next`). -/
def genreRemoteW : String → Nat → Response CatalogPage := fun u _ =>
  if u = "u2" then ⟨200, ⟨some [⟨"gy", "Y"⟩, ⟨"gz", "Z"⟩], some ⟨some [⟨"prev", "u1"⟩]⟩⟩⟩
  else ⟨200, ⟨some [⟨"gx", "X"⟩], some ⟨some [⟨"prev", "u0"⟩, ⟨"next", "u2"⟩]⟩⟩⟩

/-! ### Game enumeration (`get_platform_games`, lines 85-145) -/

/-- `_get_game_detailed_data` (lines 98-102): one GET of the per-game detail
endpoint, whose body is parsed unconditionally — the status code is never
inspected, so only attempt `0` of the oracle is ever consumed. -/
def _get_game_detailed_data (remote : String → Nat → Response GameDetailPayload)
    (game_id : String) : GameDetailPayload :=
  (remote game_id 0).body

/-- The `continue`/`yield` chain of lines 120-134 for one game record: skip
when `'genres' not in game`; skip when the include list is non-empty and
does not intersect the game's genres; skip when the exclude list is
non-empty and intersects them; in `PLATFORM_EXCLUSIVE` mode additionally
yield only when the detail payload has `data.platforms` equal to the
one-element list `[platform_id]`. -/
def game_keep (PLATFORM_EXCLUSIVE : Bool) (detail : String → Nat → Response GameDetailPayload)
    (platform_id : String) (genre_ids_to_include genre_ids_to_exclude : List String)
    (game : Game) : Bool :=
  match game.genres with
  | none => false
  | some genres =>
    if 0 < genre_ids_to_include.length ∧ ¬ ∃ x ∈ genre_ids_to_include, x ∈ genres then false
    else if 0 < genre_ids_to_exclude.length ∧ ∃ x ∈ genre_ids_to_exclude, x ∈ genres then false
    else if PLATFORM_EXCLUSIVE then
      match (_get_game_detailed_data detail game.id).data with
      | none => false
      | some gd =>
        match gd.platforms with
        | none => false
        | some platforms =>
          match platforms with
          | [p] => p == platform_id
          | _ => false
    else true

/-- Result of the `get_platform_games` generator, collected into a list,
plus the raw pages printed on a malformed payload. -/
inductive GamesResult
  | ok (games : List Game) (printed : List GamePage)
  | fuelOut
deriving DecidableEq

/-- `get_platform_games` (lines 85-145).  A 420 response sleeps and
re-issues the same URL; a page's games are filtered by `game_keep` (a page
without `data` contributes nothing); pagination follows
`data['pagination']['links'][-1]` — the positionally last link — and only
when that link's `uri` is truthy and its `rel` is `'next'`; a page whose
`pagination` or `links` key is missing is printed and ends the loop. -/
def get_platform_games (remote : String → Nat → Response GamePage)
    (detail : String → Nat → Response GameDetailPayload)
    (PLATFORM_EXCLUSIVE : Bool) (platform_id : String)
    (genre_ids_to_include genre_ids_to_exclude : List String) :
    String → Nat → List Game → List GamePage → Nat → GamesResult
  | _, _, _, _, 0 => .fuelOut
  | url, attempt, acc, printed, fuel + 1 =>
    let resp := remote url attempt
    if resp.status_code = RATE_LIMIT_ERROR_CODE then
      get_platform_games remote detail PLATFORM_EXCLUSIVE platform_id
        genre_ids_to_include genre_ids_to_exclude url (attempt + 1) acc printed fuel
    else
      let acc2 := match resp.body.data with
        | none => acc
        | some games => acc ++ games.filter
            (game_keep PLATFORM_EXCLUSIVE detail platform_id
              genre_ids_to_include genre_ids_to_exclude)
      match resp.body.pagination with
      | none => .ok acc2 (printed ++ [resp.body])
      | some pg =>
        match pg.links with
        | none => .ok acc2 (printed ++ [resp.body])
        | some links =>
          match links.getLast? with
          | none => .ok acc2 printed
          | some l =>
            if l.uri ≠ "" ∧ l.rel = "next" then
              get_platform_games remote detail PLATFORM_EXCLUSIVE platform_id
                genre_ids_to_include genre_ids_to_exclude l.uri 0 acc2 printed fuel
            else .ok acc2 printed

/-- The walk of the game loop from `url` visits exactly `pages`: each fetch
answers non-420 at its first attempt, each page has its `pagination.links`
keys present (its `data` key may be absent), each non-final page's last link
is a truthy `next`, and the final page's last link (if any) is not. -/
inductive GameChain (remote : String → Nat → Response GamePage) :
    String → List GamePage → Prop
  | last (url : String) (d : Option (List Game)) (links : List Link)
      (hstatus : (remote url 0).status_code ≠ RATE_LIMIT_ERROR_CODE)
      (hbody : (remote url 0).body = ⟨d, some ⟨some links⟩⟩)
      (hstop : ∀ l, links.getLast? = some l → ¬(l.uri ≠ "" ∧ l.rel = "next")) :
      GameChain remote url [⟨d, some ⟨some links⟩⟩]
  | step (url : String) (d : Option (List Game)) (links : List Link) (l : Link)
      (rest : List GamePage)
      (hstatus : (remote url 0).status_code ≠ RATE_LIMIT_ERROR_CODE)
      (hbody : (remote url 0).body = ⟨d, some ⟨some links⟩⟩)
      (hlast : links.getLast? = some l) (huri : l.uri ≠ "") (hrel : l.rel = "next")
      (hrest : GameChain remote l.uri rest) :
      GameChain remote url (⟨d, some ⟨some links⟩⟩ :: rest)

/-- Concrete fixture games: one without genre data, two with genre `x`, one
with genre `re`. -/
def gameA : Game := ⟨"ga", ⟨"Game A"⟩, none⟩

/-- Concrete fixture game with genre list `["x"]`. -/
def gameB : Game := ⟨"gb", ⟨"Game B"⟩, some ["x"]⟩

/-- Concrete fixture game with genre list `["re"]`. -/
def gameC : Game := ⟨"gc", ⟨"Game C"⟩, some ["re"]⟩

/-- Concrete fixture game with genre list `["x"]` and two platforms in its
detail record. -/
def gameD : Game := ⟨"gd", ⟨"Game D"⟩, some ["x"]⟩

/-- Concrete fixture: the single game-catalog page. -/
def gamesPageW : GamePage :=
  ⟨some [gameA, gameB, gameC, gameD], some ⟨some [⟨"prev", "q0"⟩]⟩⟩

/-- Concrete fixture: a one-page game catalog. -/
def gamesRemoteW : String → Nat → Response GamePage := fun _ _ => ⟨200, gamesPageW⟩

/-- Concrete fixture: per-game detail records — `gb` is exclusive to
`plat1`, `gd` is on two platforms, everything else lacks the `data` key. -/
def detailRemoteW : String → Nat → Response GameDetailPayload := fun game_id _ =>
  if game_id = "gb" then ⟨200, ⟨some ⟨some ["plat1"]⟩⟩⟩
  else if game_id = "gd" then ⟨200, ⟨some ⟨some ["plat1", "plat2"]⟩⟩⟩
  else ⟨200, ⟨none⟩⟩

/-- Concrete fixture: a detail endpoint whose first attempt is rate-limited
(status 420) with a non-empty body, and whose second attempt would succeed
with a different body. -/
def detailRemote420 : String → Nat → Response GameDetailPayload := fun _ attempt =>
  if attempt = 0 then ⟨420, ⟨some ⟨some ["a"]⟩⟩⟩ else ⟨200, ⟨some ⟨some ["b"]⟩⟩⟩

/-! ### Categories, leaderboard and world record (lines 147-221) -/

/-- `get_category_data` (lines 147-170): fetch the game's category list; on
a 420 sleep and retry via the recursive self-call; otherwise return the
payload's `data` value, or `[]` when the key is absent. -/
def get_category_data (remote : String → Nat → Response CategoriesPayload) (game_id : String) :
    Nat → Nat → Option (List CatalogEntry)
  | _, 0 => none
  | attempt, fuel + 1 =>
    let resp := remote game_id attempt
    if resp.status_code = RATE_LIMIT_ERROR_CODE then
      get_category_data remote game_id (attempt + 1) fuel
    else
      some (resp.body.data.getD [])

/-- `get_leaderboard_data` (lines 172-201): iterate the categories, skipping
every one not named exactly `Any%` (the `for`/`continue` scan up to the
first `Any%` entry is `List.find?`); fetch the first `Any%` category's
leaderboard; on a 420 sleep and restart the whole call — the recursive
self-call passes the full category list again, so it re-skips the same
prefix and re-issues the identical request; otherwise return the payload's
`data` value, or `{}` when the key is absent.  With no `Any%` category at
all, return `{}`. -/
def get_leaderboard_data (remote : String → String → Nat → Response LeaderboardPayload)
    (game_id : String) (categories_data : List CatalogEntry) :
    Nat → Nat → Option Leaderboard
  | _, 0 => none
  | attempt, fuel + 1 =>
    match categories_data.find? (fun category_data => category_data.name == "Any%") with
    | none => some ⟨none⟩
    | some category_data =>
      let resp := remote game_id category_data.id attempt
      if resp.status_code = RATE_LIMIT_ERROR_CODE then
        get_leaderboard_data remote game_id categories_data (attempt + 1) fuel
      else some (resp.body.data.getD ⟨none⟩)

/-- `get_world_record_any` (lines 203-221): compose the two fetches, then
return `runs[0]['run']['times']['primary_t']` when the leaderboard has a
`runs` key with a non-empty list, `None` otherwise.  The outer `Option` is
fuel exhaustion of the embedding only. -/
def get_world_record_any (cat_remote : String → Nat → Response CategoriesPayload)
    (lb_remote : String → String → Nat → Response LeaderboardPayload)
    (game_id : String) (fuel : Nat) : Option (Option ℚ) :=
  match get_category_data cat_remote game_id 0 fuel with
  | none => none
  | some categories_data =>
    match get_leaderboard_data lb_remote game_id categories_data 0 fuel with
    | none => none
    | some leaderboard_data =>
      some (match leaderboard_data.runs with
        | none => none
        | some runs =>
          match runs with
          | [] => none
          | r :: _ => some r.run.times.primary_t)

/-- Concrete fixture: a category list holding a `100%` category and an
`Any%` category. -/
def catRemoteW : String → Nat → Response CategoriesPayload := fun _ _ =>
  ⟨200, ⟨some [⟨"c100", "100%"⟩, ⟨"c1", "Any%"⟩]⟩⟩

/-- Concrete fixture: the `Any%` leaderboard with a single 100-second run. -/
def lbRemoteW : String → String → Nat → Response LeaderboardPayload := fun _ _ _ =>
  ⟨200, ⟨some ⟨some [⟨⟨⟨100⟩⟩⟩]⟩⟩⟩

/-- Concrete fixture: a categories endpoint rate-limited exactly once. -/
def catRemote420 : String → Nat → Response CategoriesPayload := fun _ attempt =>
  if attempt = 0 then ⟨420, ⟨none⟩⟩ else ⟨200, ⟨some [⟨"c1", "Any%"⟩]⟩⟩

/-- Concrete fixture: a leaderboard endpoint rate-limited exactly once, then
answering an empty run list. -/
def lbRemote420 : String → String → Nat → Response LeaderboardPayload := fun _ _ attempt =>
  if attempt = 0 then ⟨420, ⟨none⟩⟩ else ⟨200, ⟨some ⟨some []⟩⟩⟩

/-- Concrete fixture: a permanently rate-limited genre endpoint. -/
def genreRemote420 : String → Nat → Response CatalogPage := fun _ _ => ⟨420, ⟨none, none⟩⟩

/-- Concrete fixture: a permanently rate-limited game-catalog endpoint. -/
def gamesRemote420 : String → Nat → Response GamePage := fun _ _ => ⟨420, ⟨none, none⟩⟩

/-- Concrete fixture: a platform-catalog page used under two statuses. -/
def platPageS : CatalogPage := ⟨some [⟨"i1", "X"⟩], some ⟨some []⟩⟩

/-- Concrete fixture: platform endpoint answering status 420 with `platPageS`. -/
def platRemote420 : String → Response CatalogPage := fun _ => ⟨420, platPageS⟩

/-- Concrete fixture: platform endpoint answering status 200 with `platPageS`. -/
def platRemote200 : String → Response CatalogPage := fun _ => ⟨200, platPageS⟩

/-- Concrete fixture: a genre page carrying genre data but no `pagination`
key. -/
def genreRemoteNoPagination : String → Nat → Response CatalogPage := fun _ _ =>
  ⟨200, ⟨some [⟨"g1", "X"⟩], none⟩⟩

/-- Concrete fixture: a game page whose `pagination` block lacks the `links`
key. -/
def gamesRemoteNoLinks : String → Nat → Response GamePage := fun _ _ =>
  ⟨200, ⟨some [gameB], some ⟨none⟩⟩⟩

/-- Concrete fixture: a game page with no `data` key but a well-formed
`next` link. -/
def gamesRemoteNoData : String → Nat → Response GamePage := fun _ _ =>
  ⟨200, ⟨none, some ⟨some [⟨"next", "w2"⟩]⟩⟩⟩

/-- Concrete fixture: a platform/genre page with neither `data` nor
`pagination` keys. -/
def pageNoKeysRemote : String → Response CatalogPage := fun _ => ⟨200, ⟨none, none⟩⟩

/-- Concrete fixture: the same key-less page behind an attempt-indexed
oracle, for the genre loop. -/
def genreRemoteNoData : String → Nat → Response CatalogPage := fun _ _ => ⟨200, ⟨none, none⟩⟩

/-! ### Theorems -/

/-- Claim C7: the report driver qualifies a game exactly when its found record
time is strictly greater than the threshold `hours*3600 + minutes*60` seconds,
and prints it with `hours = floor(time/3600)`, `minutes = floor((time mod
3600)/60)` in the `{:3} hours {:2} minutes | name` format; in particular a
record of 7500.0 seconds against a 7200-second threshold prints as
`  2 hours  5 minutes | name`. -/
theorem report_driver_qualifies_iff_and_format :
    (∀ (wr : Option ℚ) (hours minutes : Nat) (name : String),
      (report_game wr (filter_min_run_time hours minutes) name).isSome = true ↔
        ∃ t, wr = some t ∧ t > filter_min_run_time hours minutes) ∧
    (∀ name : String,
      report_game (some 7500) (filter_min_run_time 2 0) name =
        some ("  2 hours  5 minutes | " ++ name)) := by
  constructor
  · intro wr hours minutes name
    cases wr with
    | none => simp [report_game]
    | some t =>
      have h0 : (0 : ℚ) ≤ filter_min_run_time hours minutes := by
        unfold filter_min_run_time; positivity
      by_cases h : t > filter_min_run_time hours minutes
      · have hne : t ≠ 0 := ne_of_gt (lt_of_le_of_lt h0 h)
        simp [report_game, hne, h]
      · simp [report_game, h]
  · intro name
    have hq : (7500 : ℚ) ≠ 0 ∧ (7500 : ℚ) > filter_min_run_time 2 0 := by
      constructor
      · norm_num
      · unfold filter_min_run_time; norm_num
    have hfl : ∀ q : ℚ, Rat.floor q = ⌊q⌋ := fun _ => rfl
    have h1 : Rat.floor ((7500 : ℚ) / 3600) = 2 := by
      rw [hfl, Int.floor_eq_iff]
      norm_num
    have h2 : Rat.floor (((7500 : ℚ) - 3600 * ((2 : ℤ) : ℚ)) / 60) = 5 := by
      rw [hfl, Int.floor_eq_iff]
      norm_num
    have hline : report_line 7500 name = "  2 hours  5 minutes | " ++ name := by
      have hhead : report_line_head 7500 = "  2 hours  5 minutes | " := by
        simp only [report_line_head, h1, h2]
        decide
      rw [report_line, hhead]
    rw [report_game, if_pos hq, hline]

/-- Helper: along a `PlatChain`, `get_platform_id` returns the first matching
entry's id after fetching the pages before and including the match, and
`None` after fetching the whole chain when no entry matches. -/
theorem get_platform_id_chain (remote : String → Response CatalogPage) (platform_name : String)
    {url : String} {pages : List CatalogPage} (hchain : PlatChain remote url pages) :
    ∀ fetches fuel, pages.length ≤ fuel →
      get_platform_id remote platform_name url fetches fuel =
        match first_platform_match platform_name pages with
        | some ie => .found ie.2.id (fetches + ie.1 + 1)
        | none => .notFound (fetches + pages.length) := by
  induction hchain with
  | last url entries links hbody hstop =>
    intro fetches fuel hfuel
    match fuel, hfuel with
    | fuel + 1, _ =>
      simp only [get_platform_id, hbody]
      cases hfind : entries.find? (fun p => p.name == platform_name) with
      | some p => simp [first_platform_match, hfind]
      | none =>
        cases hnext : links.find? (fun l => l.rel == "next") with
        | none => simp [first_platform_match, hfind, hnext]
        | some l =>
          have hu : l.uri = "" := hstop l hnext
          simp [first_platform_match, hfind, hnext, hu]
  | step url entries links l rest hbody hnext huri hrest ih =>
    intro fetches fuel hfuel
    match fuel, hfuel with
    | fuel + 1, hfuel =>
      simp only [get_platform_id, hbody]
      cases hfind : entries.find? (fun p => p.name == platform_name) with
      | some p => simp [first_platform_match, hfind]
      | none =>
        have hlen : rest.length ≤ fuel := by
          simpa using Nat.succ_le_succ_iff.mp hfuel
        have hrec := ih (fetches + 1) fuel hlen
        simp only [hnext]
        rw [if_pos huri, hrec]
        cases hfm : first_platform_match platform_name rest with
        | some ie =>
          simp [first_platform_match, hfind, hfm]
          omega
        | none =>
          simp [first_platform_match, hfind, hfm]
          omega

/-- Claim C5: platform resolution compares entry names to the requested name
case-sensitively for exact equality, returns the id of the first matching
entry having fetched only the pages up to and including the matching one,
and returns `None` (after fetching every page) when the catalog is exhausted
without a match. -/
theorem platform_resolution_first_match (remote : String → Response CatalogPage)
    (platform_name url : String) (pages : List CatalogPage) (fuel : Nat)
    (hchain : PlatChain remote url pages) (hfuel : pages.length ≤ fuel) :
    (∀ ie, first_platform_match platform_name pages = some ie →
      get_platform_id remote platform_name url 0 fuel = .found ie.2.id (ie.1 + 1)) ∧
    (first_platform_match platform_name pages = none →
      get_platform_id remote platform_name url 0 fuel = .notFound pages.length) := by
  have h := get_platform_id_chain remote platform_name hchain 0 fuel hfuel
  constructor
  · intro ie hie
    rw [hie] at h
    simpa using h
  · intro hie
    rw [hie] at h
    simpa using h

/-- Witness for C5: on a concrete two-page catalog whose second page holds
the spec's GameCube entry, resolution finds `"o1y9wo6q"` with two fetches. -/
theorem platform_resolution_first_match_witness :
    get_platform_id platRemoteW "GameCube" "p1" 0 2 = .found "o1y9wo6q" 2 := by
  have hchain : PlatChain platRemoteW "p1" [platPage1, platPage2] := by
    refine PlatChain.step "p1" [⟨"pc-id", "PC"⟩] [⟨"next", "p2"⟩] ⟨"next", "p2"⟩ _ ?_ ?_ ?_ ?_
    · rfl
    · rfl
    · decide
    · refine PlatChain.last "p2" [⟨"o1y9wo6q", "GameCube"⟩] [⟨"prev", "p1"⟩] rfl ?_
      intro l h
      simp at h
  have h := (platform_resolution_first_match platRemoteW "GameCube" "p1"
    [platPage1, platPage2] 2 hchain (by decide)).1 (1, ⟨"o1y9wo6q", "GameCube"⟩) (by decide)
  simpa using h

/-- Helper: classification distributes over list concatenation. -/
theorem classify_genres_append (GI GE : List String) (xs ys : List CatalogEntry) :
    classify_genres GI GE (xs ++ ys) =
      ((classify_genres GI GE xs).1 ++ (classify_genres GI GE ys).1,
       (classify_genres GI GE xs).2 ++ (classify_genres GI GE ys).2) := by
  induction xs with
  | nil => simp [classify_genres]
  | cons g gs ih =>
    by_cases h1 : g.name ∈ GI
    · simp [classify_genres, ih, h1]
    · by_cases h2 : g.name ∈ GE <;> simp [classify_genres, ih, h1, h2]

/-- Helper: the `if/elif` classification equals include-filtering and
include-priority exclude-filtering of the genre list. -/
theorem classify_genres_spec (GI GE : List String) (gs : List CatalogEntry) :
    classify_genres GI GE gs =
      ((gs.filter fun g => GI.contains g.name).map (fun g => g.id),
       (gs.filter fun g => !GI.contains g.name && GE.contains g.name).map (fun g => g.id)) := by
  induction gs with
  | nil => simp [classify_genres]
  | cons g gs ih =>
    by_cases h1 : g.name ∈ GI
    · simp [classify_genres, ih, h1, List.filter_cons]
    · by_cases h2 : g.name ∈ GE <;>
        simp [classify_genres, ih, h1, h2, List.filter_cons]

/-- Helper: along a `GenreChain` the genre loop returns, appended to the
accumulators, the classification of every visited page's genres, and prints
nothing. -/
theorem get_genre_ids_chain (remote : String → Nat → Response CatalogPage)
    (GI GE : List String) {url : String} {pages : List CatalogPage}
    (hchain : GenreChain remote url pages) :
    ∀ acc_inc acc_exc printed fuel, pages.length ≤ fuel →
      get_genre_ids_to_include_and_exclude remote GI GE url 0 acc_inc acc_exc printed fuel =
        .ok (acc_inc ++ (classify_genres GI GE (pages.flatMap fun p => p.data.getD [])).1)
            (acc_exc ++ (classify_genres GI GE (pages.flatMap fun p => p.data.getD [])).2)
            printed := by
  induction hchain with
  | last url entries links hstatus hbody hstop =>
    intro acc_inc acc_exc printed fuel hfuel
    match fuel, hfuel with
    | fuel + 1, _ =>
      simp only [get_genre_ids_to_include_and_exclude, hbody, if_neg hstatus]
      cases hlast : links.getLast? with
      | none => simp [hlast]
      | some l =>
        have := hstop l hlast
        simp [hlast, if_neg this]
  | step url entries links l rest hstatus hbody hlast huri hrel hrest ih =>
    intro acc_inc acc_exc printed fuel hfuel
    match fuel, hfuel with
    | fuel + 1, hfuel =>
      have hlen : rest.length ≤ fuel := by simpa using Nat.succ_le_succ_iff.mp hfuel
      simp only [get_genre_ids_to_include_and_exclude, hbody, if_neg hstatus, hlast,
        if_pos (And.intro huri hrel)]
      rw [ih _ _ _ fuel hlen]
      simp [classify_genres_append, List.append_assoc]

/-- Claim C6: for all include and exclude name lists, the genre resolver
walks the whole visited catalog and classifies each genre into the include
ids if its name is in the include list, else into the exclude ids if its
name is in the exclude list — a genre whose name is in both lists lands in
the include ids only. -/
theorem genre_resolution_classification (remote : String → Nat → Response CatalogPage)
    (GI GE : List String) (url : String) (pages : List CatalogPage) (fuel : Nat)
    (hchain : GenreChain remote url pages) (hfuel : pages.length ≤ fuel) :
    get_genre_ids_to_include_and_exclude remote GI GE url 0 [] [] [] fuel =
      .ok (((pages.flatMap fun p => p.data.getD []).filter
              fun g => GI.contains g.name).map (fun g => g.id))
          (((pages.flatMap fun p => p.data.getD []).filter
              fun g => !GI.contains g.name && GE.contains g.name).map (fun g => g.id))
          [] := by
  have h := get_genre_ids_chain remote GI GE hchain [] [] [] fuel hfuel
  simpa [classify_genres_spec] using h

/-- Witness for C6: on a concrete two-page catalog with genres `X`, `Y`, `Z`,
include list `["X"]` and exclude list `["X", "Y"]`, genre `X` (in both lists)
lands in the include ids only and `Y` in the exclude ids. -/
theorem genre_resolution_classification_witness :
    get_genre_ids_to_include_and_exclude genreRemoteW ["X"] ["X", "Y"] "u1" 0 [] [] [] 2 =
      .ok ["gx"] ["gy"] [] := by
  have hchain : GenreChain genreRemoteW "u1"
      [⟨some [⟨"gx", "X"⟩], some ⟨some [⟨"prev", "u0"⟩, ⟨"next", "u2"⟩]⟩⟩,
       ⟨some [⟨"gy", "Y"⟩, ⟨"gz", "Z"⟩], some ⟨some [⟨"prev", "u1"⟩]⟩⟩] := by
    refine GenreChain.step "u1" [⟨"gx", "X"⟩] [⟨"prev", "u0"⟩, ⟨"next", "u2"⟩]
      ⟨"next", "u2"⟩ _ (by decide) rfl rfl (by decide) rfl ?_
    exact GenreChain.last "u2" [⟨"gy", "Y"⟩, ⟨"gz", "Z"⟩] [⟨"prev", "u1"⟩] (by decide) rfl
      (by decide)
  have h := genre_resolution_classification genreRemoteW ["X"] ["X", "Y"] "u1" _ 2 hchain
    (by decide)
  simpa using h

/-- Claim C1 (counterexample to the claim, supporting `code_bug`): genre
resolution inspects only the positionally last pagination link.  On a page
whose links array lists the `next` link first and a `prev` link last, the
loop stops after the first page: with include list `["X", "Y"]` it returns
only `X`'s id, even though the second page (served at the `next` link's URI,
as the second equation shows) holds genre `Y`. -/
theorem genre_pagination_positional_lookup_stops_early :
    get_genre_ids_to_include_and_exclude genreRemoteReordered ["X", "Y"] [] "u1" 0 [] [] [] 9 =
      .ok ["g1"] [] [] ∧
    get_genre_ids_to_include_and_exclude genreRemoteReordered ["X", "Y"] [] "u2" 0 [] [] [] 9 =
      .ok ["g2"] [] [] := by
  constructor
  · decide
  · decide

/-- Helper: along a `GameChain` the game loop returns, appended to the
accumulator, every visited page's games filtered by `game_keep`, and prints
nothing. -/
theorem get_platform_games_chain (remote : String → Nat → Response GamePage)
    (detail : String → Nat → Response GameDetailPayload) (excl : Bool)
    (pid : String) (GI GE : List String) {url : String} {pages : List GamePage}
    (hchain : GameChain remote url pages) :
    ∀ acc printed fuel, pages.length ≤ fuel →
      get_platform_games remote detail excl pid GI GE url 0 acc printed fuel =
        .ok (acc ++ (pages.flatMap fun p => p.data.getD []).filter
              (game_keep excl detail pid GI GE)) printed := by
  induction hchain with
  | last url d links hstatus hbody hstop =>
    intro acc printed fuel hfuel
    match fuel, hfuel with
    | fuel + 1, _ =>
      simp only [get_platform_games, hbody, if_neg hstatus]
      cases hlast : links.getLast? with
      | none => cases d <;> simp [hlast]
      | some l =>
        have := hstop l hlast
        cases d <;> simp [hlast, if_neg this]
  | step url d links l rest hstatus hbody hlast huri hrel hrest ih =>
    intro acc printed fuel hfuel
    match fuel, hfuel with
    | fuel + 1, hfuel =>
      have hlen : rest.length ≤ fuel := by simpa using Nat.succ_le_succ_iff.mp hfuel
      simp only [get_platform_games, hbody, if_neg hstatus, hlast,
        if_pos (And.intro huri hrel)]
      rw [ih _ _ fuel hlen]
      cases d <;> simp [List.filter_append, List.append_assoc]

/-- Helper: in non-exclusive mode a game passes `game_keep` exactly when it
carries genre data, the include list is empty or intersected, and the
exclude list is empty or not intersected. -/
theorem game_keep_false_spec (detail : String → Nat → Response GameDetailPayload)
    (pid : String) (GI GE : List String) (g : Game) :
    game_keep false detail pid GI GE g = true ↔
      ∃ genres, g.genres = some genres ∧
        (GI = [] ∨ ∃ x ∈ GI, x ∈ genres) ∧
        (GE = [] ∨ ¬ ∃ x ∈ GE, x ∈ genres) := by
  cases hg : g.genres with
  | none => simp [game_keep, hg]
  | some genres =>
    simp only [game_keep, hg, Option.some.injEq, exists_eq_left']
    constructor
    · intro h
      by_cases c1 : 0 < GI.length ∧ ¬∃ x ∈ GI, x ∈ genres
      · rw [if_pos c1] at h
        exact absurd h (by simp)
      · by_cases c2 : 0 < GE.length ∧ ∃ x ∈ GE, x ∈ genres
        · rw [if_neg c1, if_pos c2] at h
          exact absurd h (by simp)
        · constructor
          · rcases Decidable.em (GI = []) with hGI | hGI
            · exact Or.inl hGI
            · right
              by_contra hnx
              exact c1 ⟨List.length_pos.mpr hGI, hnx⟩
          · rcases Decidable.em (GE = []) with hGE | hGE
            · exact Or.inl hGE
            · right
              intro hx
              exact c2 ⟨List.length_pos.mpr hGE, hx⟩
    · rintro ⟨hi, he⟩
      have c1 : ¬(0 < GI.length ∧ ¬∃ x ∈ GI, x ∈ genres) := by
        rintro ⟨hlen, hnx⟩
        rcases hi with hGI | hx
        · rw [hGI] at hlen
          exact absurd hlen (by simp)
        · exact hnx hx
      have c2 : ¬(0 < GE.length ∧ ∃ x ∈ GE, x ∈ genres) := by
        rintro ⟨hlen, hx⟩
        rcases he with hGE | hnx
        · rw [hGE] at hlen
          exact absurd hlen (by simp)
        · exact hnx hx
      rw [if_neg c1, if_neg c2]
      rfl

/-- Helper: in exclusive mode a game passes `game_keep` exactly when it
passes the genre conditions and its detail payload's platform list is
exactly `[platform_id]`. -/
theorem game_keep_true_spec (detail : String → Nat → Response GameDetailPayload)
    (pid : String) (GI GE : List String) (g : Game) :
    game_keep true detail pid GI GE g = true ↔
      (∃ genres, g.genres = some genres ∧
        (GI = [] ∨ ∃ x ∈ GI, x ∈ genres) ∧
        (GE = [] ∨ ¬ ∃ x ∈ GE, x ∈ genres)) ∧
      (∃ gd, (_get_game_detailed_data detail g.id).data = some gd ∧
        gd.platforms = some [pid]) := by
  cases hg : g.genres with
  | none => simp [game_keep, hg]
  | some genres =>
    simp only [game_keep, hg, Option.some.injEq, exists_eq_left']
    by_cases c1 : 0 < GI.length ∧ ¬∃ x ∈ GI, x ∈ genres
    · rw [if_pos c1]
      simp only [Bool.false_eq_true, false_iff]
      rintro ⟨⟨hi, -⟩, -⟩
      rcases hi with hGI | hx
      · rw [hGI] at c1
        exact absurd c1.1 (by simp)
      · exact c1.2 hx
    · by_cases c2 : 0 < GE.length ∧ ∃ x ∈ GE, x ∈ genres
      · rw [if_neg c1, if_pos c2]
        simp only [Bool.false_eq_true, false_iff]
        rintro ⟨⟨-, he⟩, -⟩
        rcases he with hGE | hnx
        · rw [hGE] at c2
          exact absurd c2.1 (by simp)
        · exact hnx c2.2
      · rw [if_neg c1, if_neg c2]
        have hgenA : GI = [] ∨ ∃ x ∈ GI, x ∈ genres := by
          rcases Decidable.em (GI = []) with hGI | hGI
          · exact Or.inl hGI
          · right
            by_contra hnx
            exact c1 ⟨List.length_pos.mpr hGI, hnx⟩
        have hgenB : GE = [] ∨ ∀ x ∈ GE, x ∉ genres := by
          rcases Decidable.em (GE = []) with hGE | hGE
          · exact Or.inl hGE
          · right
            intro x hx hxg
            exact c2 ⟨List.length_pos.mpr hGE, ⟨x, hx, hxg⟩⟩
        cases hd : (_get_game_detailed_data detail g.id).data with
        | none => simp [hd]
        | some gd =>
          cases hp : gd.platforms with
          | none => simp [hp, hgenA, hgenB]
          | some platforms =>
            match platforms with
            | [] => simp [hp, hgenA, hgenB]
            | [p] => simp [hp, hgenA, hgenB, beq_iff_eq]
            | p :: q :: rest => simp [hp, hgenA, hgenB]

/-- Claim C4: with exclusivity off, the enumerator yields exactly the games
of the visited catalog pages that carry genre data, whose genre set
intersects the include-id list unless it is empty, and whose genre set does
not intersect the exclude-id list unless that is empty; in particular an
empty include list drops nothing and every yielded game has genre data. -/
theorem game_enumeration_genre_filters (remote : String → Nat → Response GamePage)
    (detail : String → Nat → Response GameDetailPayload) (pid : String)
    (GI GE : List String) (url : String) (pages : List GamePage) (fuel : Nat)
    (hchain : GameChain remote url pages) (hfuel : pages.length ≤ fuel) :
    get_platform_games remote detail false pid GI GE url 0 [] [] fuel =
      .ok ((pages.flatMap fun p => p.data.getD []).filter
            (game_keep false detail pid GI GE)) [] ∧
    ∀ g, g ∈ (pages.flatMap fun p => p.data.getD []).filter
            (game_keep false detail pid GI GE) ↔
      g ∈ (pages.flatMap fun p => p.data.getD []) ∧
        ∃ genres, g.genres = some genres ∧
          (GI = [] ∨ ∃ x ∈ GI, x ∈ genres) ∧
          (GE = [] ∨ ¬ ∃ x ∈ GE, x ∈ genres) := by
  constructor
  · simpa using get_platform_games_chain remote detail false pid GI GE hchain [] [] fuel hfuel
  · intro g
    rw [List.mem_filter, game_keep_false_spec]

/-- Witness for C4: on a concrete one-page catalog with an empty include
list and exclude list `["re"]`, the enumerator yields exactly the two games
with genre `x` — the genre-less game and the `re` game are dropped, and
nothing is dropped for lacking overlap with the empty include list. -/
theorem game_enumeration_genre_filters_witness :
    get_platform_games gamesRemoteW detailRemoteW false "plat1" [] ["re"] "q1" 0 [] [] 1 =
      .ok [gameB, gameD] [] := by
  have hchain : GameChain gamesRemoteW "q1" [gamesPageW] := by
    refine GameChain.last "q1" (some [gameA, gameB, gameC, gameD]) [⟨"prev", "q0"⟩]
      (by decide) rfl ?_
    decide
  have h := (game_enumeration_genre_filters gamesRemoteW detailRemoteW "plat1" [] ["re"]
    "q1" [gamesPageW] 1 hchain (by decide)).1
  rw [h]
  decide

/-- Claim C10: with exclusivity on, a game surviving the genre filters is
yielded exactly when its detail payload has the `data` and `platforms` keys
and the platform list is exactly `[platform_id]`; a detail payload missing
either key silently skips the game — the walk still ends in an `ok` result,
never an error. -/
theorem game_enumeration_exclusive_detail (remote : String → Nat → Response GamePage)
    (detail : String → Nat → Response GameDetailPayload) (pid : String)
    (GI GE : List String) (url : String) (pages : List GamePage) (fuel : Nat)
    (hchain : GameChain remote url pages) (hfuel : pages.length ≤ fuel) :
    get_platform_games remote detail true pid GI GE url 0 [] [] fuel =
      .ok ((pages.flatMap fun p => p.data.getD []).filter
            (game_keep true detail pid GI GE)) [] ∧
    ∀ g, g ∈ (pages.flatMap fun p => p.data.getD []).filter
            (game_keep true detail pid GI GE) ↔
      g ∈ (pages.flatMap fun p => p.data.getD []) ∧
        (∃ genres, g.genres = some genres ∧
          (GI = [] ∨ ∃ x ∈ GI, x ∈ genres) ∧
          (GE = [] ∨ ¬ ∃ x ∈ GE, x ∈ genres)) ∧
        (∃ gd, (_get_game_detailed_data detail g.id).data = some gd ∧
          gd.platforms = some [pid]) := by
  constructor
  · simpa using get_platform_games_chain remote detail true pid GI GE hchain [] [] fuel hfuel
  · intro g
    rw [List.mem_filter, game_keep_true_spec]

/-- Witness for C10: on the concrete one-page catalog in exclusive mode,
only the game whose detail record lists exactly `["plat1"]` is yielded — the
two-platform game and the games with detail or genre data missing are
silently skipped while the result is still `ok`. -/
theorem game_enumeration_exclusive_detail_witness :
    get_platform_games gamesRemoteW detailRemoteW true "plat1" [] [] "q1" 0 [] [] 1 =
      .ok [gameB] [] := by
  have hchain : GameChain gamesRemoteW "q1" [gamesPageW] := by
    refine GameChain.last "q1" (some [gameA, gameB, gameC, gameD]) [⟨"prev", "q0"⟩]
      (by decide) rfl ?_
    decide
  have h := (game_enumeration_exclusive_detail gamesRemoteW detailRemoteW "plat1" [] []
    "q1" [gamesPageW] 1 hchain (by decide)).1
  rw [h]
  decide

/-- Helper: `get_category_data` returns the body of the first non-420
response, however many 420 responses precede it. -/
theorem get_category_data_first_success (remote : String → Nat → Response CategoriesPayload)
    (game_id : String) :
    ∀ k a fuel,
      (∀ j, j < k → (remote game_id (a + j)).status_code = RATE_LIMIT_ERROR_CODE) →
      (remote game_id (a + k)).status_code ≠ RATE_LIMIT_ERROR_CODE → k < fuel →
      get_category_data remote game_id a fuel =
        some ((remote game_id (a + k)).body.data.getD []) := by
  intro k
  induction k with
  | zero =>
    intro a fuel h420 hok hfuel
    simp only [Nat.add_zero] at hok ⊢
    match fuel, hfuel with
    | fuel + 1, _ =>
      simp only [get_category_data]
      rw [if_neg hok]
  | succ k ih =>
    intro a fuel h420 hok hfuel
    match fuel, hfuel with
    | fuel + 1, hfuel =>
      have h0 : (remote game_id a).status_code = RATE_LIMIT_ERROR_CODE := by
        have := h420 0 (Nat.succ_pos k)
        simpa using this
      have e : ∀ j, a + 1 + j = a + (j + 1) := by omega
      have hrec := ih (a + 1) fuel
        (fun j hj => by rw [e j]; exact h420 (j + 1) (by omega))
        (by rw [e k]; exact hok) (by omega)
      simp only [get_category_data]
      rw [if_pos h0, hrec, e k]

/-- Helper: the leaderboard lookup returns the body of the first non-420
response for the first `Any%` category's leaderboard. -/
theorem get_leaderboard_data_first_success
    (remote : String → String → Nat → Response LeaderboardPayload)
    (game_id : String) (cats : List CatalogEntry) (c : CatalogEntry)
    (hfind : cats.find? (fun x => x.name == "Any%") = some c) :
    ∀ k a fuel,
      (∀ j, j < k → (remote game_id c.id (a + j)).status_code = RATE_LIMIT_ERROR_CODE) →
      (remote game_id c.id (a + k)).status_code ≠ RATE_LIMIT_ERROR_CODE → k < fuel →
      get_leaderboard_data remote game_id cats a fuel =
        some ((remote game_id c.id (a + k)).body.data.getD ⟨none⟩) := by
  intro k
  induction k with
  | zero =>
    intro a fuel h420 hok hfuel
    simp only [Nat.add_zero] at hok ⊢
    match fuel, hfuel with
    | fuel + 1, _ =>
      simp only [get_leaderboard_data, hfind]
      rw [if_neg hok]
  | succ k ih =>
    intro a fuel h420 hok hfuel
    match fuel, hfuel with
    | fuel + 1, hfuel =>
      have h0 : (remote game_id c.id a).status_code = RATE_LIMIT_ERROR_CODE := by
        have := h420 0 (Nat.succ_pos k)
        simpa using this
      have e : ∀ j, a + 1 + j = a + (j + 1) := by omega
      have hrec := ih (a + 1) fuel
        (fun j hj => by rw [e j]; exact h420 (j + 1) (by omega))
        (by rw [e k]; exact hok) (by omega)
      simp only [get_leaderboard_data, hfind]
      rw [if_pos h0, hrec, e k]

/-- Helper: with no `Any%` category the leaderboard lookup returns the empty
object without fetching. -/
theorem get_leaderboard_data_no_any
    (remote : String → String → Nat → Response LeaderboardPayload)
    (game_id : String) (cats : List CatalogEntry)
    (hfind : cats.find? (fun x => x.name == "Any%") = none) :
    ∀ a fuel, get_leaderboard_data remote game_id cats a (fuel + 1) = some ⟨none⟩ := by
  intro a fuel
  simp only [get_leaderboard_data, hfind]

/-- Claim C3: for a game whose category payload and (when applicable)
leaderboard payload are well-formed and served without throttling, the
world-record lookup returns `None` when no category is named exactly `Any%`,
returns `None` when the first `Any%` category's leaderboard has an empty run
list, and otherwise returns the first run's `primary_t` — `None` arises in
exactly those two cases. -/
theorem world_record_lookup_cases (cat_remote : String → Nat → Response CategoriesPayload)
    (lb_remote : String → String → Nat → Response LeaderboardPayload)
    (game_id : String) (cats : List CatalogEntry) (fuel : Nat)
    (hfuel : 0 < fuel)
    (hcstat : (cat_remote game_id 0).status_code ≠ RATE_LIMIT_ERROR_CODE)
    (hcdata : (cat_remote game_id 0).body.data = some cats) :
    (cats.find? (fun x => x.name == "Any%") = none →
      get_world_record_any cat_remote lb_remote game_id fuel = some none) ∧
    (∀ c runs, cats.find? (fun x => x.name == "Any%") = some c →
      (lb_remote game_id c.id 0).status_code ≠ RATE_LIMIT_ERROR_CODE →
      (lb_remote game_id c.id 0).body.data = some ⟨some runs⟩ →
      get_world_record_any cat_remote lb_remote game_id fuel =
        some (match runs with
          | [] => none
          | r :: _ => some r.run.times.primary_t)) := by
  have hcat : get_category_data cat_remote game_id 0 fuel = some cats := by
    have h := get_category_data_first_success cat_remote game_id 0 0 fuel
      (fun j hj => absurd hj (by omega)) (by simpa using hcstat) hfuel
    simpa [hcdata] using h
  constructor
  · intro hnone
    have hlb : get_leaderboard_data lb_remote game_id cats 0 fuel = some ⟨none⟩ := by
      match fuel, hfuel with
      | fuel + 1, _ => exact get_leaderboard_data_no_any lb_remote game_id cats hnone 0 fuel
    simp [get_world_record_any, hcat, hlb]
  · intro c runs hfind hlbstat hlbdata
    have hlb : get_leaderboard_data lb_remote game_id cats 0 fuel = some ⟨some runs⟩ := by
      have h := get_leaderboard_data_first_success lb_remote game_id cats c hfind 0 0 fuel
        (fun j hj => absurd hj (by omega)) (by simpa using hlbstat) hfuel
      simpa [hlbdata] using h
    simp [get_world_record_any, hcat, hlb]

/-- Witness for C3: on the concrete fixtures — categories `100%` and `Any%`,
the `Any%` leaderboard holding one 100-second run — the lookup returns
100 seconds. -/
theorem world_record_lookup_cases_witness :
    get_world_record_any catRemoteW lbRemoteW "game1" 1 = some (some 100) := by
  have h := (world_record_lookup_cases catRemoteW lbRemoteW "game1"
      [⟨"c100", "100%"⟩, ⟨"c1", "Any%"⟩] 1 (by decide) (by decide) rfl).2
    ⟨"c1", "Any%"⟩ [⟨⟨⟨100⟩⟩⟩] (by decide) (by decide) rfl
  exact h

/-- Claim C9: the world-record lookup is deterministic in the remote state —
two invocations against pointwise-identical category and leaderboard oracles
return the same value. -/
theorem world_record_lookup_deterministic
    (cat_remote cat_remote' : String → Nat → Response CategoriesPayload)
    (lb_remote lb_remote' : String → String → Nat → Response LeaderboardPayload)
    (game_id : String) (fuel : Nat)
    (hcat : ∀ g a, cat_remote g a = cat_remote' g a)
    (hlb : ∀ g c a, lb_remote g c a = lb_remote' g c a) :
    get_world_record_any cat_remote lb_remote game_id fuel =
      get_world_record_any cat_remote' lb_remote' game_id fuel := by
  have e1 : cat_remote = cat_remote' := funext fun g => funext fun a => hcat g a
  have e2 : lb_remote = lb_remote' := funext fun g => funext fun c => funext fun a => hlb g c a
  rw [e1, e2]

/-- Witness for C9: two runs of the lookup on the same concrete fixtures. -/
theorem world_record_lookup_deterministic_witness :
    get_world_record_any catRemoteW lbRemoteW "game1" 1 =
      get_world_record_any catRemoteW lbRemoteW "game1" 1 :=
  world_record_lookup_deterministic catRemoteW catRemoteW lbRemoteW lbRemoteW "game1" 1
    (fun _ _ => rfl) (fun _ _ _ => rfl)

/-- Helper: `get_platform_id` never reads the status code — it depends only
on response bodies. -/
theorem get_platform_id_body_only (platform_name : String) :
    ∀ fuel (remote remote' : String → Response CatalogPage),
      (∀ u, (remote u).body = (remote' u).body) →
      ∀ url fetches,
        get_platform_id remote platform_name url fetches fuel =
          get_platform_id remote' platform_name url fetches fuel := by
  intro fuel
  induction fuel with
  | zero =>
    intro remote remote' h url fetches
    rfl
  | succ fuel ih =>
    intro remote remote' h url fetches
    simp only [get_platform_id, h url]
    cases hd : (remote' url).body.data with
    | none => rfl
    | some platforms =>
      dsimp only
      cases hf : platforms.find? (fun p => p.name == platform_name) with
      | some p => rfl
      | none =>
        dsimp only
        cases hp : (remote' url).body.pagination with
        | none => rfl
        | some pg =>
          dsimp only
          cases hl : pg.links with
          | none => rfl
          | some links =>
            dsimp only
            cases hn : links.find? (fun l => l.rel == "next") with
            | some l =>
              dsimp only
              by_cases hu : l.uri ≠ ""
              · rw [if_pos hu, if_pos hu]
                exact ih remote remote' h l.uri (fetches + 1)
              · rw [if_neg hu, if_neg hu]
            | none => rfl

/-- Claim C2 (amended): the game-catalog, genre, category-list and
leaderboard fetches sleep and re-issue the identical request on a 420,
returning the first non-rate-limited response; the platform-page fetch and
the per-game detail fetch never inspect the status code — a 420 response's
payload is consumed as if valid. -/
theorem rate_limit_retry_and_unchecked_fetches :
    (∀ (remote : String → Nat → Response CategoriesPayload) (game_id : String) (k fuel : Nat),
      (∀ j, j < k → (remote game_id j).status_code = RATE_LIMIT_ERROR_CODE) →
      (remote game_id k).status_code ≠ RATE_LIMIT_ERROR_CODE → k < fuel →
      get_category_data remote game_id 0 fuel =
        some ((remote game_id k).body.data.getD [])) ∧
    (∀ (remote : String → String → Nat → Response LeaderboardPayload) (game_id : String)
      (cats : List CatalogEntry) (c : CatalogEntry) (k fuel : Nat),
      cats.find? (fun x => x.name == "Any%") = some c →
      (∀ j, j < k → (remote game_id c.id j).status_code = RATE_LIMIT_ERROR_CODE) →
      (remote game_id c.id k).status_code ≠ RATE_LIMIT_ERROR_CODE → k < fuel →
      get_leaderboard_data remote game_id cats 0 fuel =
        some ((remote game_id c.id k).body.data.getD ⟨none⟩)) ∧
    (∀ (remote : String → Nat → Response CatalogPage) (GI GE : List String) (url : String)
      (attempt : Nat) (acc_inc acc_exc : List String) (printed : List CatalogPage) (fuel : Nat),
      (remote url attempt).status_code = RATE_LIMIT_ERROR_CODE →
      get_genre_ids_to_include_and_exclude remote GI GE url attempt acc_inc acc_exc printed
          (fuel + 1) =
        get_genre_ids_to_include_and_exclude remote GI GE url (attempt + 1) acc_inc acc_exc
          printed fuel) ∧
    (∀ (remote : String → Nat → Response GamePage)
      (detail : String → Nat → Response GameDetailPayload) (excl : Bool) (pid : String)
      (GI GE : List String) (url : String) (attempt : Nat) (acc : List Game)
      (printed : List GamePage) (fuel : Nat),
      (remote url attempt).status_code = RATE_LIMIT_ERROR_CODE →
      get_platform_games remote detail excl pid GI GE url attempt acc printed (fuel + 1) =
        get_platform_games remote detail excl pid GI GE url (attempt + 1) acc printed fuel) ∧
    (∀ (remote remote' : String → Response CatalogPage) (platform_name url : String)
      (fetches fuel : Nat),
      (∀ u, (remote u).body = (remote' u).body) →
      get_platform_id remote platform_name url fetches fuel =
        get_platform_id remote' platform_name url fetches fuel) ∧
    (∀ (remote : String → Nat → Response GameDetailPayload) (game_id : String),
      _get_game_detailed_data remote game_id = (remote game_id 0).body) := by
  refine ⟨?_, ?_, ?_, ?_, ?_, ?_⟩
  · intro remote game_id k fuel h420 hok hfuel
    have h := get_category_data_first_success remote game_id k 0 fuel
      (fun j hj => by simpa using h420 j hj) (by simpa using hok) hfuel
    simpa using h
  · intro remote game_id cats c k fuel hfind h420 hok hfuel
    have h := get_leaderboard_data_first_success remote game_id cats c hfind k 0 fuel
      (fun j hj => by simpa using h420 j hj) (by simpa using hok) hfuel
    simpa using h
  · intro remote GI GE url attempt acc_inc acc_exc printed fuel h
    simp only [get_genre_ids_to_include_and_exclude]
    rw [if_pos h]
  · intro remote detail excl pid GI GE url attempt acc printed fuel h
    simp only [get_platform_games]
    rw [if_pos h]
  · intro remote remote' platform_name url fetches fuel h
    exact get_platform_id_body_only platform_name fuel remote remote' h url fetches
  · intro remote game_id
    rfl

/-- Witness for C2 (amended): concrete instances — a once-throttled category
fetch and leaderboard fetch return the attempt-1 body; permanently throttled
genre and game loops step to the next attempt; the platform walk ignores a
420 status outright; the detail fetch reads attempt 0. -/
theorem rate_limit_retry_and_unchecked_fetches_witness :
    get_category_data catRemote420 "g" 0 2 = some [⟨"c1", "Any%"⟩] ∧
    get_leaderboard_data lbRemote420 "g" [⟨"c1", "Any%"⟩] 0 2 = some ⟨some []⟩ ∧
    get_genre_ids_to_include_and_exclude genreRemote420 [] [] "u" 0 [] [] [] 2 =
      get_genre_ids_to_include_and_exclude genreRemote420 [] [] "u" 1 [] [] [] 1 ∧
    get_platform_games gamesRemote420 detailRemoteW false "p" [] [] "u" 0 [] [] 2 =
      get_platform_games gamesRemote420 detailRemoteW false "p" [] [] "u" 1 [] [] 1 ∧
    get_platform_id platRemote420 "X" "u" 0 3 = get_platform_id platRemote200 "X" "u" 0 3 ∧
    _get_game_detailed_data detailRemote420 "g" = (detailRemote420 "g" 0).body := by
  refine ⟨?_, ?_, ?_, ?_, ?_, ?_⟩
  · have h := rate_limit_retry_and_unchecked_fetches.1 catRemote420 "g" 1 2
      (fun j hj => by
        have hj0 : j = 0 := by omega
        subst hj0
        rfl)
      (by decide) (by decide)
    exact h.trans (by decide)
  · have h := rate_limit_retry_and_unchecked_fetches.2.1 lbRemote420 "g"
      [⟨"c1", "Any%"⟩] ⟨"c1", "Any%"⟩ 1 2 (by decide)
      (fun j hj => by
        have hj0 : j = 0 := by omega
        subst hj0
        rfl)
      (by decide) (by decide)
    exact h.trans (by decide)
  · exact rate_limit_retry_and_unchecked_fetches.2.2.1 genreRemote420 [] [] "u" 0 [] [] [] 1 rfl
  · exact rate_limit_retry_and_unchecked_fetches.2.2.2.1 gamesRemote420 detailRemoteW false "p"
      [] [] "u" 0 [] [] 1 rfl
  · exact rate_limit_retry_and_unchecked_fetches.2.2.2.2.1 platRemote420 platRemote200 "X" "u"
      0 3 (fun _ => rfl)
  · exact rate_limit_retry_and_unchecked_fetches.2.2.2.2.2 detailRemote420 "g"

/-- Counterexample to claim C2 as stated: the per-game detail fetch consumes
the body of a rate-limited (status 420) response instead of sleeping and
retrying — the returned payload is the 420 attempt's, not the succeeding
attempt's. -/
theorem detail_fetch_surfaces_rate_limit :
    (detailRemote420 "g" 0).status_code = RATE_LIMIT_ERROR_CODE ∧
    _get_game_detailed_data detailRemote420 "g" = (detailRemote420 "g" 0).body ∧
    (detailRemote420 "g" 0).body ≠ (detailRemote420 "g" 1).body := by
  refine ⟨rfl, rfl, ?_⟩
  decide

/-- Claim C8 (amended): in game enumeration and genre resolution a page
whose `pagination` key (or its `links` subkey) is missing is printed raw and
ends the walk with an `ok` result; a page missing `data` is not printed —
game enumeration skips its entries and follows pagination normally, while
genre resolution and platform resolution raise a `KeyError`. -/
theorem malformed_payload_handling :
    (∀ (remote : String → Nat → Response CatalogPage) (GI GE : List String) (url : String)
      (entries : List CatalogEntry) (fuel : Nat) (acc_inc acc_exc : List String)
      (printed : List CatalogPage),
      (remote url 0).status_code ≠ RATE_LIMIT_ERROR_CODE →
      (remote url 0).body = ⟨some entries, none⟩ →
      get_genre_ids_to_include_and_exclude remote GI GE url 0 acc_inc acc_exc printed
          (fuel + 1) =
        .ok (acc_inc ++ (classify_genres GI GE entries).1)
            (acc_exc ++ (classify_genres GI GE entries).2)
            (printed ++ [⟨some entries, none⟩])) ∧
    (∀ (remote : String → Nat → Response GamePage)
      (detail : String → Nat → Response GameDetailPayload) (excl : Bool) (pid : String)
      (GI GE : List String) (url : String) (d : Option (List Game)) (fuel : Nat)
      (acc : List Game) (printed : List GamePage),
      (remote url 0).status_code ≠ RATE_LIMIT_ERROR_CODE →
      (remote url 0).body = ⟨d, some ⟨none⟩⟩ →
      get_platform_games remote detail excl pid GI GE url 0 acc printed (fuel + 1) =
        .ok (acc ++ (d.getD []).filter (game_keep excl detail pid GI GE))
            (printed ++ [⟨d, some ⟨none⟩⟩])) ∧
    (∀ (remote : String → Nat → Response GamePage)
      (detail : String → Nat → Response GameDetailPayload) (excl : Bool) (pid : String)
      (GI GE : List String) (url : String) (links : List Link) (l : Link) (fuel : Nat)
      (acc : List Game) (printed : List GamePage),
      (remote url 0).status_code ≠ RATE_LIMIT_ERROR_CODE →
      (remote url 0).body = ⟨none, some ⟨some links⟩⟩ →
      links.getLast? = some l → l.uri ≠ "" → l.rel = "next" →
      get_platform_games remote detail excl pid GI GE url 0 acc printed (fuel + 1) =
        get_platform_games remote detail excl pid GI GE l.uri 0 acc printed fuel) ∧
    (∀ (remote : String → Response CatalogPage) (platform_name url : String)
      (fetches fuel : Nat),
      (remote url).body.data = none →
      get_platform_id remote platform_name url fetches (fuel + 1) = .keyError) ∧
    (∀ (remote : String → Nat → Response CatalogPage) (GI GE : List String) (url : String)
      (attempt : Nat) (acc_inc acc_exc : List String) (printed : List CatalogPage) (fuel : Nat),
      (remote url attempt).status_code ≠ RATE_LIMIT_ERROR_CODE →
      (remote url attempt).body.data = none →
      get_genre_ids_to_include_and_exclude remote GI GE url attempt acc_inc acc_exc printed
          (fuel + 1) = .keyError) := by
  refine ⟨?_, ?_, ?_, ?_, ?_⟩
  · intro remote GI GE url entries fuel acc_inc acc_exc printed hstat hbody
    simp only [get_genre_ids_to_include_and_exclude, hbody]
    rw [if_neg hstat]
  · intro remote detail excl pid GI GE url d fuel acc printed hstat hbody
    simp only [get_platform_games, hbody]
    rw [if_neg hstat]
    cases d <;> simp
  · intro remote detail excl pid GI GE url links l fuel acc printed hstat hbody hlast huri hrel
    simp only [get_platform_games, hbody]
    rw [if_neg hstat]
    simp only [hlast]
    rw [if_pos ⟨huri, hrel⟩]
  · intro remote platform_name url fetches fuel hdata
    simp only [get_platform_id, hdata]
  · intro remote GI GE url attempt acc_inc acc_exc printed fuel hstat hdata
    simp only [get_genre_ids_to_include_and_exclude, hdata]
    rw [if_neg hstat]

/-- Witness for C8 (amended): concrete instances of each behaviour — the
printed-and-stopped genre and game pages, the data-less game page that
continues to the next URL, and the `KeyError` results of platform and genre
resolution on a data-less page. -/
theorem malformed_payload_handling_witness :
    get_genre_ids_to_include_and_exclude genreRemoteNoPagination ["X"] [] "u" 0 [] [] [] 1 =
      .ok ["g1"] [] [⟨some [⟨"g1", "X"⟩], none⟩] ∧
    get_platform_games gamesRemoteNoLinks detailRemoteW false "p" [] [] "u" 0 [] [] 1 =
      .ok [gameB] [⟨some [gameB], some ⟨none⟩⟩] ∧
    get_platform_games gamesRemoteNoData detailRemoteW false "p" [] [] "w1" 0 [] [] 1 =
      get_platform_games gamesRemoteNoData detailRemoteW false "p" [] [] "w2" 0 [] [] 0 ∧
    get_platform_id pageNoKeysRemote "X" "u" 0 1 = .keyError ∧
    get_genre_ids_to_include_and_exclude genreRemoteNoData [] [] "u" 0 [] [] [] 1 =
      .keyError := by
  refine ⟨?_, ?_, ?_, ?_, ?_⟩
  · have h := malformed_payload_handling.1 genreRemoteNoPagination ["X"] [] "u"
      [⟨"g1", "X"⟩] 0 [] [] [] (by decide) rfl
    exact h.trans (by decide)
  · have h := malformed_payload_handling.2.1 gamesRemoteNoLinks detailRemoteW false "p" [] []
      "u" (some [gameB]) 0 [] [] (by decide) rfl
    exact h.trans (by decide)
  · exact malformed_payload_handling.2.2.1 gamesRemoteNoData detailRemoteW false "p" [] []
      "w1" [⟨"next", "w2"⟩] ⟨"next", "w2"⟩ 0 [] [] (by decide) rfl rfl (by decide) rfl
  · exact malformed_payload_handling.2.2.2.1 pageNoKeysRemote "X" "u" 0 0 rfl
  · exact malformed_payload_handling.2.2.2.2 genreRemoteNoData [] [] "u" 0 [] [] [] 0
      (by decide) rfl

/-- Counterexample to claim C8 as stated: on a page lacking the `data` key
the platform resolver raises a `KeyError` instead of printing the payload
and treating pagination as exhausted. -/
theorem platform_malformed_payload_raises :
    get_platform_id pageNoKeysRemote "X" "u" 0 3 = .keyError := by
  decide

end AnyPercentSearcher
